import Mathlib

/-
Shallow embedding of the HAL cost-estimation backend
(backend/services/cost_calculation_service.py and
backend/schemas/cost_schemas.py), with real numbers modelled as ℚ and
Python dictionaries modelled as structures of Option fields.
Python `try/except` around database access is modelled by queries of type
`Except Unit _` (an `error` value is a raised database fault); functions
that can raise `ValueError` return `Except String _` carrying the message.
String fields of MHR configuration records that the code parses with
`float(...)` are modelled post-parse as `Option ℚ` (missing or unparsable
text is `none`).
-/

set_option maxRecDepth 10000

namespace HAL

/-- Is `pat` a prefix of `s`?  (Structural recursion so that concrete
instances reduce in the kernel.) -/
def listPrefixB (pat s : List Char) : Bool :=
  match pat, s with
  | [], _ => true
  | _ :: _, [] => false
  | a :: as, b :: bs => a = b && listPrefixB as bs

/-- Is `pat` a contiguous sublist of `s`? -/
def listInfixB (pat s : List Char) : Bool :=
  match s with
  | [] => pat.isEmpty
  | _ :: rest => listPrefixB pat s || listInfixB pat rest

/-- Is `pat` a suffix of `s`? -/
def listSuffixB (pat s : List Char) : Bool := listPrefixB pat.reverse s.reverse

/-- Python `str.lower()` (ASCII model). -/
def pyLower (s : String) : String := ⟨s.data.map Char.toLower⟩

/-- Python `str.strip()`. -/
def pyTrim (s : String) : String :=
  ⟨((s.data.dropWhile Char.isWhitespace).reverse.dropWhile
      Char.isWhitespace).reverse⟩

/-- Python `pat in s` substring test. -/
def strContains (s pat : String) : Bool := listInfixB pat.data s.data

/-- Split a character list at separators, like Python `str.split()`
before the empty-word filter.  `cur` is the word read so far. -/
def wordsAux (p : Char → Bool) : List Char → List Char → List (List Char)
  | [], cur => [cur.reverse]
  | c :: cs, cur =>
    if p c then cur.reverse :: wordsAux p cs [] else wordsAux p cs (c :: cur)

/-- Join words with single spaces, like `" ".join(...)`. -/
def joinSp : List (List Char) → List Char
  | [] => []
  | [w] => w
  | w :: ws => w ++ ' ' :: joinSp ws

/-- The `_norm` helper of `get_machine_hour_rate`: strip, lowercase,
replace underscores and hyphens with spaces, collapse whitespace and drop
a trailing " duty". -/
def pyNorm (s : Option String) : String :=
  match s with
  | none => ""
  | some s =>
    let out := (pyTrim s).data.map Char.toLower
    let out := out.map (fun c => if c = '_' ∨ c = '-' then ' ' else c)
    let out := joinSp ((wordsAux Char.isWhitespace out []).filter
      (fun w => w ≠ []))
    if listSuffixB " duty".data out then ⟨out.take (out.length - 5)⟩
    else ⟨out⟩

/-- Python 3 `round()` to an integer: banker's rounding (half to even). -/
def bankersRound (x : ℚ) : ℤ :=
  let f : ℤ := ⌊x⌋
  let r := x - (f : ℚ)
  if r < 1/2 then f
  else if 1/2 < r then f + 1
  else if f % 2 = 0 then f else f + 1

/-- Python `round(x, 2)`. -/
def round2 (x : ℚ) : ℚ := (bankersRound (100 * x) : ℚ) / 100

/-- Python `round(x, 3)`. -/
def round3 (x : ℚ) : ℚ := (bankersRound (1000 * x) : ℚ) / 1000

/-- Python `round(x, 4)`. -/
def round4 (x : ℚ) : ℚ := (bankersRound (10000 * x) : ℚ) / 10000

/-- The dimensions dictionary: a key is present iff the field is `some`. -/
structure Dimensions where
  diameter : Option ℚ
  length : Option ℚ
  breadth : Option ℚ
  height : Option ℚ
deriving DecidableEq

/-- The `_bump` helper of `determine_duty_category`: index in
["light", "medium", "heavy"] (unknown strings giving index 0), add
`steps`, clamp into [0, 2]. -/
def bump (d : String) (steps : ℤ) : String :=
  let idx : ℤ := if d = "light" then 0 else if d = "medium" then 1
    else if d = "heavy" then 2 else 0
  let j := min 2 (max 0 (idx + steps))
  if j ≤ 0 then "light" else if j = 1 then "medium" else "heavy"

/-- Duty severity as a number, for stating monotonicity:
light = 0, medium = 1, heavy = 2. -/
def dutyRank (s : String) : ℕ :=
  if s = "medium" then 1 else if s = "heavy" then 2 else 0

/-- The function `dutyRank` lifted to the optional result of the classifier. -/
def dutyRankO (s : Option String) : ℕ :=
  match s with
  | some x => dutyRank x
  | none => 0

/-- The material/operation post-adjustment at the end of
`determine_duty_category` (lines 154-161): steel or titanium bump
light→medium, titanium further bumps medium→heavy, and heat_treatment or
welding bump one level.  `mat` and `op` are already stripped+lowercased. -/
def dutyAdjust (mat op : String) (b0 : String) : String :=
  let b1 :=
    if mat = "steel" ∨ mat = "titanium" then
      let x := bump b0 (if b0 = "light" then 1 else 0)
      if mat = "titanium" ∧ x = "medium" then bump x 1 else x
    else b0
  if op = "heat_treatment" ∨ op = "welding" then bump b1 1 else b1

/-- The round-shape geometric thresholds of `determine_duty_category`
(lines 80-119); `mat` and `op` already stripped+lowercased. -/
def roundBase (mat op : String) (d l : ℚ) : String :=
  if op = "turning" ∨ op = "boring" then
    if mat = "aluminium" then
      if d < 80 ∧ l < 500 then "light"
      else if d ≤ 150 ∧ l ≤ 1000 then "medium"
      else "heavy"
    else if mat = "steel" then
      if d < 50 ∧ l < 200 then "light"
      else if d ≤ 100 ∧ l ≤ 500 then "medium"
      else "heavy"
    else if mat = "titanium" then
      if d < 30 ∧ l < 150 then "light"
      else if d ≤ 60 ∧ l ≤ 300 then "medium"
      else "heavy"
    else
      if d < 80 ∧ l < 500 then "light"
      else if d ≤ 150 ∧ l ≤ 1000 then "medium"
      else "heavy"
  else
    if d ≤ 100 ∧ l ≤ 300 then "light"
    else if d ≤ 300 ∧ l ≤ 1200 then "medium"
    else "heavy"

/-- The rectangular-shape geometric thresholds of
`determine_duty_category` (lines 63-78). -/
def rectBase (l b h : ℚ) : String :=
  let maxDim := max l (max b h)
  if maxDim ≤ 750 then "light"
  else if maxDim ≤ 1500 then "medium"
  else "heavy"

/-- Model of `CostCalculationService.determine_duty_category`.  Returns `none`
exactly when the Python function raises `KeyError` in the volume-based
fallback (a required dictionary key is missing). -/
def determine_duty_category (shape : String) (dims : Dimensions)
    (material operation : String) : Option String :=
  let op := pyLower (pyTrim operation)
  let mat := pyLower (pyTrim material)
  let base : Option String :=
    if shape = "rectangular" then
      match dims.length, dims.breadth, dims.height with
      | some l, some b, some h => some (rectBase l b h)
      | _, _, _ => none
    else if shape = "round" then
      match dims.diameter, dims.length with
      | some d, some l => some (roundBase mat op d l)
      | _, _ => none
    else none
  match base with
  | some b => some (dutyAdjust mat op b)
  | none =>
    let vol : Option ℚ :=
      if shape = "round" then
        match dims.diameter, dims.length with
        | some d, some l => some (314159/100000 * (d/2)^2 * l)
        | _, _ => none
      else
        match dims.length, dims.breadth, dims.height with
        | some l, some b, some h => some (l * b * h)
        | _, _, _ => none
    match vol with
    | none => none
    | some volume =>
      let material_factor : ℚ :=
        if mat = "aluminium" then 1
        else if mat = "steel" then 3
        else if mat = "titanium" then 17/10 else 1
      let operation_factor : ℚ :=
        if op = "turning" then 1
        else if op = "milling" then 3/2
        else if op = "drilling" then 4/5
        else if op = "grinding" then 6/5
        else if op = "boring" then 13/10
        else if op = "heat_treatment" then 2
        else if op = "welding" then 9/5
        else if op = "surface_treatment" then 1 else 1
      let score := volume / 1000000 * material_factor * operation_factor
      let b := if score < 5 then "light"
        else if score < 20 then "medium" else "heavy"
      some (dutyAdjust mat op b)

/-- Model of `CostCalculationService.determine_machine_category`: keyword match on
the lowercased machine display name. -/
def determine_machine_category (machineName : String) : String :=
  let n := pyLower machineName
  if strContains n "cnc" ∨ strContains n "precision" then
    if strContains n "5" ∨ strContains n "five" ∨ strContains n "5 axis" ∨
        strContains n "5-axis" then "cnc_5axis"
    else "cnc_3axis"
  else if strContains n "spm" ∨ strContains n "special" then "spm"
  else "conventional"

/-- Model of `CostCalculationService.get_wage_rate`: monthly wage (15000
conventional, 20000 otherwise) divided by 200 hours. -/
def get_wage_rate (machineName : String) : ℚ :=
  if determine_machine_category machineName = "conventional"
  then 15000 / 200 else 20000 / 200

/-- The `_category_bucket` helper of `get_machine_hour_rate`. -/
def category_bucket (cat : String) : String :=
  let c := pyLower (pyTrim cat)
  if listPrefixB "cnc".data c.data then "cnc"
  else if c = "spm" then "spm"
  else "conventional"

/-- The `_methodology_inputs` static table of `get_machine_hour_rate`:
(investment cost, power kW, available hours, downtime rate) keyed by
(operation, duty, category bucket). -/
def methodology_inputs (op du machineCat : String) :
    Option (ℚ × ℚ × ℚ × ℚ) :=
  let opKey := pyLower (pyTrim op)
  let duKey := pyLower (pyTrim du)
  let catKey := category_bucket machineCat
  let table : List ((String × String × String) × (ℚ × ℚ × ℚ × ℚ)) :=
    [ (("turning", "light", "conventional"), (2000000, 5, 3600, 7/100)),
      (("turning", "light", "cnc"), (5000000, 12, 4500, 15/100)),
      (("turning", "medium", "conventional"), (3000000, 8, 3600, 7/100)),
      (("turning", "medium", "cnc"), (6000000, 15, 4500, 15/100)),
      (("turning", "heavy", "conventional"), (5000000, 12, 3600, 7/100)),
      (("turning", "heavy", "cnc"), (10000000, 20, 4500, 15/100)),
      (("milling", "light", "conventional"), (3000000, 8, 3600, 7/100)),
      (("milling", "light", "cnc"), (6000000, 15, 4500, 15/100)),
      (("milling", "medium", "conventional"), (5000000, 10, 3600, 7/100)),
      (("milling", "medium", "cnc"), (7000000, 20, 4500, 15/100)),
      (("milling", "heavy", "conventional"), (6000000, 15, 3600, 7/100)),
      (("milling", "heavy", "cnc"), (12000000, 30, 4500, 15/100)) ]
  table.lookup (opKey, duKey, catKey)

/-- One row of the MHR configuration table, with the joined operation,
duty and machine names used by the fuzzy scan.  Numeric fields are the
already-parsed results of the code's `_to_float` (a `none` is a missing
or unparsable value). -/
structure MHRRecord where
  opTypeId : Option ℤ
  dutyId : Option ℤ
  machineId : Option ℤ
  operationName : Option String
  dutyName : Option String
  machineName : Option String
  investmentCost : Option ℚ
  electPowerRating : Option ℚ
  availableHrsPerAnnum : Option ℚ
  machineHrRate : Option ℚ
deriving DecidableEq

/-- The read-only reference store.  Each query either returns its rows or
raises a database fault (`Except.error ()`), which the Python code
catches with `try/except`. -/
structure Database where
  operationTypes : Except Unit (List (ℤ × Option String))
  duties : Except Unit (List (ℤ × Option String))
  mhrExact : Except Unit (List MHRRecord)
  mhrScan : Except Unit (List MHRRecord)

/-- A database whose every query succeeds with no rows. -/
def emptyDb : Database := ⟨.ok [], .ok [], .ok [], .ok []⟩

/-- The `_calculate_mhr_from_record` helper of `get_machine_hour_rate`:
depreciation (10% of investment over utilization hours) plus power
charges, with no maintenance multiplier.  `machineName` is the machine
requested by the caller (the Python closure reads it from the enclosing
scope). -/
def calculate_mhr_from_record (machineName : String) (rec : MHRRecord) :
    Option ℚ :=
  match rec.investmentCost, rec.electPowerRating with
  | some inv, some kw =>
    let avail : ℚ :=
      match rec.availableHrsPerAnnum with
      | some a => if a ≤ 0 then 2400 else a
      | none => 2400
    let category := determine_machine_category machineName
    let downtime : ℚ := if pyLower category = "conventional" then 7/100 else 15/100
    let utilization := avail * (1 - downtime)
    let power := kw * 5
    let dep := inv * (1/10) / utilization
    some (dep + power)
  | _, _ => none

/-- The `_resolve_duty_id` helper: first duty row whose normalized name
matches the normalized request; any database fault yields `none`. -/
def resolve_duty_id (db : Database) (d : String) : Option ℤ :=
  let dNorm := pyNorm (some d)
  if dNorm = "" then none
  else
    match db.duties with
    | .error _ => none
    | .ok duties =>
      (duties.find? (fun du => pyNorm du.2 = dNorm)).map (fun du => du.1)

/-- Tier 1 of `get_machine_hour_rate` (lines 433-441): static
methodology table, depreciation + power charges. -/
def tier1 (operation duty machineName : String) : Option ℚ :=
  match methodology_inputs operation duty
      (determine_machine_category machineName) with
  | some (inv, kw, avail, downtime) =>
    let utilization := avail * (1 - downtime)
    some (inv * (1/10) / utilization + kw * 5)
  | none => none

/-- Tier 2 of `get_machine_hour_rate` (lines 443-471): exact
configuration record by (operation id, duty id, machine id).  A raised
database fault anywhere in the enclosing `try` is caught and yields
`none`. -/
def tier2 (db : Database) (operation duty machineName : String)
    (machineId opTypeId dutyId : Option ℤ) : Option ℚ :=
  let opIdRes : Except Unit (Option ℤ) :=
    match opTypeId with
    | some i => .ok (some i)
    | none =>
      if operation ≠ "" then
        match db.operationTypes with
        | .error e => .error e
        | .ok rows =>
          .ok ((rows.find? (fun r =>
            match r.2 with
            | some s => pyLower (pyTrim s) = pyLower (pyTrim operation)
            | none => False)).map (fun r => r.1))
      else .ok none
  match opIdRes with
  | .error _ => none
  | .ok opId =>
    let duId := match dutyId with
      | some i => some i
      | none => resolve_duty_id db duty
    match opId, duId, machineId with
    | some oi, some di, some mi =>
      match db.mhrExact with
      | .error _ => none
      | .ok recs =>
        match recs.find? (fun r =>
            r.opTypeId = some oi ∧ r.dutyId = some di ∧
            r.machineId = some mi) with
        | some rec =>
          match calculate_mhr_from_record machineName rec with
          | some v => some v
          | none => rec.machineHrRate
        | none => none
    | _, _, _ => none

/-- The machine-name match score of the fuzzy scan: 2 normalized-exact,
1 substring either direction, 0 otherwise. -/
def scoreMachine (machineNorm recMachine : String) : ℕ :=
  if recMachine = machineNorm then 2
  else if recMachine ≠ "" ∧ machineNorm ≠ "" ∧
      (strContains machineNorm recMachine ∨ strContains recMachine machineNorm)
  then 1
  else 0

/-- The candidate loop of the fuzzy scan: keep the first record whose
score strictly exceeds every earlier one, skipping records whose
normalized operation or duty differ, and stop at the first exact
match. -/
def bestCandidate (opNorm dutyNorm machineNorm : String) :
    List MHRRecord → Option (MHRRecord × ℕ) → Option MHRRecord
  | [], best => best.map (fun b => b.1)
  | rec :: rest, best =>
    if pyNorm rec.operationName = opNorm ∧ pyNorm rec.dutyName = dutyNorm then
      let score := scoreMachine machineNorm (pyNorm rec.machineName)
      let bestScore : ℤ := match best with
        | some (_, s) => (s : ℤ)
        | none => -1
      let best2 := if (score : ℤ) > bestScore then some (rec, score) else best
      if (match best2 with | some (_, s) => s | none => 0) = 2 then
        best2.map (fun b => b.1)
      else bestCandidate opNorm dutyNorm machineNorm rest best2
    else bestCandidate opNorm dutyNorm machineNorm rest best

/-- Tier 3 of `get_machine_hour_rate` (lines 477-523): fuzzy scan of the
configuration table narrowed by operation name; database faults yield
`none`. -/
def tier3 (db : Database) (operation duty machineName : String) : Option ℚ :=
  match db.mhrScan with
  | .error _ => none
  | .ok recs =>
    let opNorm := pyNorm (some operation)
    let dutyNorm := pyNorm (some duty)
    let machineNorm := pyNorm (some machineName)
    let candidates := recs.filter (fun r =>
      match r.operationName with
      | some s => pyLower (pyTrim s) = pyLower (pyTrim operation)
      | none => False)
    match bestCandidate opNorm dutyNorm machineNorm candidates none with
    | some best =>
      match calculate_mhr_from_record machineName best with
      | some v => some v
      | none => best.machineHrRate
    | none => none

/-- The message of the `ValueError` raised when every tier misses. -/
def mhrNotConfiguredMsg : String :=
  "MHR not configured for the selected operation, duty, and machine. Please add a matching row in the MHR configuration table."

/-- Model of `CostCalculationService.get_machine_hour_rate`: tier 1 (methodology
table), then tier 2 (exact record), then tier 3 (fuzzy scan), else raise
`ValueError`. -/
def get_machine_hour_rate (db : Database) (operation duty machineName : String)
    (machineId opTypeId dutyId : Option ℤ) : Except String ℚ :=
  match tier1 operation duty machineName with
  | some v => .ok v
  | none =>
    match tier2 db operation duty machineName machineId opTypeId dutyId with
    | some v => .ok v
    | none =>
      match tier3 db operation duty machineName with
      | some v => .ok v
      | none => .error mhrNotConfiguredMsg

/-- Model of `CostCalculationService.calculate_complete_machine_hour_rate`:
depreciation + power charges, times the 5% maintenance multiplier. -/
def calculate_complete_machine_hour_rate (investment kw : ℚ)
    (category : String) (availableHours : Option ℚ) : ℚ :=
  let avail := availableHours.getD 2400
  let downtime : ℚ := if pyLower category = "conventional" then 7/100 else 15/100
  let utilization := avail * (1 - downtime)
  let power := kw * 5
  let dep := investment * (1/10) / utilization
  (dep + power) * (1 + 5/100)

/-- Model of `CostCalculationService.get_machine_hour_rate_with_fallback`: the
resolver, with a category-default Tier-4 calculation when it raises. -/
def get_machine_hour_rate_with_fallback (db : Database)
    (operation duty machineName : String) : ℚ :=
  match get_machine_hour_rate db operation duty machineName none none none with
  | .ok v => v
  | .error _ =>
    let category := determine_machine_category machineName
    let inv : ℚ := if category = "conventional" then 1000000
      else if category = "cnc_3axis" then 3000000 else 5000000
    let kw : ℚ := if category = "conventional" then 15
      else if category = "cnc_3axis" then 20 else 25
    calculate_complete_machine_hour_rate inv kw category none

/-- The rounded output dictionary of `calculate_costs`. -/
structure CostBreakdownOut where
  man_hours_per_unit : ℚ
  machine_hour_rate : ℚ
  wage_rate : ℚ
  basic_cost_per_unit : ℚ
  overheads_per_unit : ℚ
  profit_per_unit : ℚ
  packing_forwarding_per_unit : ℚ
  unit_cost : ℚ
  total_unit_cost_with_misc : ℚ
  total_cost : ℚ
  outsourcing_mhr : ℚ
  miscellaneous_amount : ℚ
deriving DecidableEq

/-- Model of `CostCalculationService.calculate_costs`: the single-operation cost
aggregation formula, rounded at the output boundary. -/
def calculate_costs (man_hours machine_hour_rate wage_rate : ℚ)
    (quantity : ℤ) (miscellaneous_amount : ℚ) : CostBreakdownOut :=
  let basic_cost := man_hours * (machine_hour_rate + wage_rate)
  let overheads := wage_rate * man_hours
  let profit := 1/10 * (basic_cost + overheads)
  let packing_forwarding := 2/100 * basic_cost
  let unit_cost := basic_cost + overheads + profit + packing_forwarding
  let total_unit_cost_with_misc := unit_cost + miscellaneous_amount
  let total_cost := total_unit_cost_with_misc * (quantity : ℚ)
  let outsourcing_mhr := machine_hour_rate + 2 * wage_rate
  { man_hours_per_unit := round4 man_hours
    machine_hour_rate := round2 machine_hour_rate
    wage_rate := round2 wage_rate
    basic_cost_per_unit := round2 basic_cost
    overheads_per_unit := round2 overheads
    profit_per_unit := round2 profit
    packing_forwarding_per_unit := round2 packing_forwarding
    unit_cost := round2 unit_cost
    total_unit_cost_with_misc := round2 total_unit_cost_with_misc
    total_cost := round2 total_cost
    outsourcing_mhr := round2 outsourcing_mhr
    miscellaneous_amount := round2 miscellaneous_amount }

/-- The rounded output dictionary of `calculate_nrc_amortization`. -/
structure NrcOut where
  total_nrc : ℚ
  nrc_per_unit : ℚ
  amortization_quantity : ℤ
  tooling_cost : ℚ
  development_cost : ℚ
  cnc_programming_cost : ℚ
  special_process_cost : ℚ
  other_nrc_cost : ℚ
deriving DecidableEq

/-- Model of `CostCalculationService.calculate_nrc_amortization`.  The divisor
follows Python truthiness: a supplied nonzero quantity is used even when
negative, while `None` or `0` falls back to the ordered quantity. -/
def calculate_nrc_amortization (tooling_cost development_cost
    cnc_programming_cost special_process_cost other_nrc_cost : ℚ)
    (ordered_quantity : ℤ) (amortize_over_quantity : Option ℤ) : NrcOut :=
  let total_nrc := tooling_cost + development_cost + cnc_programming_cost +
    special_process_cost + other_nrc_cost
  let amortization_quantity : ℤ :=
    match amortize_over_quantity with
    | some a => if a = 0 then ordered_quantity else a
    | none => ordered_quantity
  let nrc_per_unit : ℚ :=
    if amortization_quantity > 0 then total_nrc / (amortization_quantity : ℚ)
    else 0
  { total_nrc := round2 total_nrc
    nrc_per_unit := round2 nrc_per_unit
    amortization_quantity := amortization_quantity
    tooling_cost := round2 tooling_cost
    development_cost := round2 development_cost
    cnc_programming_cost := round2 cnc_programming_cost
    special_process_cost := round2 special_process_cost
    other_nrc_cost := round2 other_nrc_cost }

/-- The output dictionary of `calculate_material_cost`; the free-issue
branch omits the volume and density keys, modelled as `none`. -/
structure MaterialCostOut where
  material_cost_per_unit : ℚ
  material_weight_kg : ℚ
  volume_cm3 : Option ℚ
  density_g_cm3 : Option ℚ
  is_free_issue : Bool
deriving DecidableEq

/-- Model of `CostCalculationService.calculate_material_cost`: volume from shape
and dimensions (0 when neither pattern matches), density lookup with a
steel default, weight and cost. -/
def calculate_material_cost (material : String) (dims : Dimensions)
    (shape : String) (material_cost_per_kg : ℚ)
    (is_hal_free_issue : Bool) : MaterialCostOut :=
  if is_hal_free_issue then
    { material_cost_per_unit := 0
      material_weight_kg := 0
      volume_cm3 := none
      density_g_cm3 := none
      is_free_issue := true }
  else
    let volume_mm3 : ℚ :=
      if shape = "round" ∧ dims.diameter.isSome ∧ dims.length.isSome then
        match dims.diameter, dims.length with
        | some d, some l => 314159/100000 * (d/2)^2 * l
        | _, _ => 0
      else if shape = "rectangular" ∧ dims.length.isSome ∧
          dims.breadth.isSome ∧ dims.height.isSome then
        match dims.length, dims.breadth, dims.height with
        | some l, some b, some h => l * b * h
        | _, _, _ => 0
      else 0
    let volume_cm3 := volume_mm3 / 1000
    let density : ℚ :=
      if pyLower material = "aluminium" then 270/100
      else if pyLower material = "steel" then 785/100
      else if pyLower material = "titanium" then 451/100
      else if pyLower material = "copper" then 896/100
      else if pyLower material = "brass" then 850/100
      else 785/100
    let weight_kg := volume_cm3 * density / 1000
    let material_cost_per_unit := weight_kg * material_cost_per_kg
    { material_cost_per_unit := round2 material_cost_per_unit
      material_weight_kg := round3 weight_kg
      volume_cm3 := some (round3 volume_cm3)
      density_g_cm3 := some density
      is_free_issue := false }

/-- The `OperationType` enum of `cost_schemas.py`. -/
inductive OperationTypeE where
  | turning | milling | drilling | grinding | boring
  | heat_treatment | welding | surface_treatment
deriving DecidableEq

/-- The `.value` string of each `OperationType` member. -/
def OperationTypeE.value : OperationTypeE → String
  | .turning => "turning"
  | .milling => "milling"
  | .drilling => "drilling"
  | .grinding => "grinding"
  | .boring => "boring"
  | .heat_treatment => "heat_treatment"
  | .welding => "welding"
  | .surface_treatment => "surface_treatment"

/-- The `ComponentDimensions` model: `length` is required by the schema,
the other fields are optional (and positive when present, enforced by
pydantic field constraints outside the validator). -/
structure ComponentDimensions where
  diameter : Option ℚ
  length : ℚ
  breadth : Option ℚ
  height : Option ℚ
deriving DecidableEq

/-- Model of `CostEstimationRequest.validate_dimensions_by_operation`
(cost_schemas.py lines 85-126), with the exact `ValueError` messages. -/
def validate_dimensions_by_operation (operation : OperationTypeE)
    (v : ComponentDimensions) : Except String ComponentDimensions :=
  let round_operations := ["turning", "boring"]
  let rectangular_operations := ["milling", "grinding", "surface_treatment"]
  if round_operations.contains operation.value then
    if v.diameter = none then
      .error ("For " ++ operation.value ++ " operation, 'diameter' is required")
    else if v.breadth ≠ none ∨ v.height ≠ none then
      .error ("For " ++ operation.value ++
        " operation, only 'diameter' and 'length' are needed (round part)")
    else .ok v
  else if rectangular_operations.contains operation.value then
    if v.breadth = none ∨ v.height = none then
      .error ("For " ++ operation.value ++
        " operation, 'length', 'breadth', and 'height' are required")
    else if v.diameter ≠ none then
      .error ("For " ++ operation.value ++
        " operation, only 'length', 'breadth', and 'height' are needed (rectangular part)")
    else .ok v
  else
    let has_round := v.diameter ≠ none
    let has_rectangular := v.breadth ≠ none ∧ v.height ≠ none
    if ¬(has_round ∨ has_rectangular) then
      .error ("For " ++ operation.value ++
        " operation, provide either (diameter + length) for round parts OR (length + breadth + height) for rectangular parts")
    else if has_round ∧ has_rectangular then
      .error ("For " ++ operation.value ++
        " operation, provide EITHER round dimensions (diameter + length) OR rectangular dimensions (length + breadth + height), not both")
    else .ok v

/-- The claim's failure condition for dimension validation, stated from
the spec's wording: round operations must not lack diameter nor carry
breadth/height; rectangular operations must not lack breadth/height nor
carry diameter; the remaining operations must carry exactly one of the
round set (diameter, with the always-required length) and the
rectangular set (breadth and height with length). -/
def claimedDimensionFailure (op : OperationTypeE)
    (v : ComponentDimensions) : Prop :=
  if op = .turning ∨ op = .boring then
    v.diameter = none ∨ v.breadth ≠ none ∨ v.height ≠ none
  else if op = .milling ∨ op = .grinding ∨ op = .surface_treatment then
    v.breadth = none ∨ v.height = none ∨ v.diameter ≠ none
  else
    ¬((v.diameter ≠ none) ∨ (v.breadth ≠ none ∧ v.height ≠ none)) ∨
    ((v.diameter ≠ none) ∧ (v.breadth ≠ none ∧ v.height ≠ none))

instance (op : OperationTypeE) (v : ComponentDimensions) :
    Decidable (claimedDimensionFailure op v) := by
  unfold claimedDimensionFailure
  exact inferInstance

/-- A database holding a conflicting MHR configuration record for
(turning, medium, CNC Lathe), used to check Tier-1 priority. -/
def dbConflict : Database :=
  let r0 : MHRRecord :=
    { opTypeId := some 1, dutyId := some 1, machineId := some 1
      operationName := some "turning", dutyName := some "medium"
      machineName := some "CNC Lathe"
      investmentCost := none, electPowerRating := none
      availableHrsPerAnnum := none, machineHrRate := some 999 }
  ⟨.ok [(1, some "turning")], .ok [(1, some "medium")], .ok [r0], .ok [r0]⟩

/-
Helper lemmas.
-/

lemma bankersRound_eq_of_lt (x : ℚ) (n : ℤ) (h1 : (n : ℚ) ≤ x)
    (h2 : x - n < 1/2) : bankersRound x = n := by
  have hf : ⌊x⌋ = n := Int.floor_eq_iff.mpr ⟨h1, by linarith⟩
  simp only [bankersRound, hf]
  rw [if_pos h2]

lemma bankersRound_eq_of_gt (x : ℚ) (n : ℤ) (h1 : (n : ℚ) ≤ x)
    (h3 : x < n + 1) (h2 : 1/2 < x - n) : bankersRound x = n + 1 := by
  have hf : ⌊x⌋ = n := Int.floor_eq_iff.mpr ⟨h1, by linarith⟩
  simp only [bankersRound, hf]
  rw [if_neg (by linarith), if_pos h2]

lemma round2_lo (x : ℚ) (n : ℤ) (h1 : (n : ℚ) ≤ 100 * x)
    (h2 : 100 * x - n < 1/2) : round2 x = (n : ℚ) / 100 := by
  rw [round2, bankersRound_eq_of_lt _ n h1 h2]

lemma round2_hi (x : ℚ) (n : ℤ) (h1 : (n : ℚ) ≤ 100 * x)
    (h3 : 100 * x < n + 1) (h2 : 1/2 < 100 * x - n) :
    round2 x = ((n + 1 : ℤ) : ℚ) / 100 := by
  rw [round2, bankersRound_eq_of_gt _ n h1 h3 h2]

lemma round2_zero : round2 0 = 0 := by
  rw [round2_lo 0 0] <;> norm_num

lemma round3_zero : round3 0 = 0 := by
  rw [round3, bankersRound_eq_of_lt _ 0] <;> norm_num

lemma determine_machine_category_cases (mn : String) :
    determine_machine_category mn = "cnc_5axis" ∨
    determine_machine_category mn = "cnc_3axis" ∨
    determine_machine_category mn = "spm" ∨
    determine_machine_category mn = "conventional" := by
  simp only [determine_machine_category]
  split_ifs <;> simp

lemma ccmhr_conventional (inv kw : ℚ) (ah : Option ℚ) :
    calculate_complete_machine_hour_rate inv kw "conventional" ah =
      (inv * (1/10) / (ah.getD 2400 * (1 - 7/100)) + kw * 5) * (1 + 5/100) := rfl

lemma ccmhr_cnc3 (inv kw : ℚ) (ah : Option ℚ) :
    calculate_complete_machine_hour_rate inv kw "cnc_3axis" ah =
      (inv * (1/10) / (ah.getD 2400 * (1 - 15/100)) + kw * 5) * (1 + 5/100) := rfl

lemma ccmhr_cnc5 (inv kw : ℚ) (ah : Option ℚ) :
    calculate_complete_machine_hour_rate inv kw "cnc_5axis" ah =
      (inv * (1/10) / (ah.getD 2400 * (1 - 15/100)) + kw * 5) * (1 + 5/100) := rfl

lemma ccmhr_spm (inv kw : ℚ) (ah : Option ℚ) :
    calculate_complete_machine_hour_rate inv kw "spm" ah =
      (inv * (1/10) / (ah.getD 2400 * (1 - 15/100)) + kw * 5) * (1 + 5/100) := rfl

/-
Claim theorems.
-/

/-- C1: for all man-hours A, machine hour rate B, wage rate C, quantity q
and miscellaneous amount m, `calculate_costs` computes (before output
rounding) basic cost D = A×(B+C), overheads OH = C×A,
profit = 0.10×(D+OH), packing and forwarding = 0.02×D,
unit_cost = D+OH+profit+PF, total_unit_cost_with_misc = unit_cost+m,
total_cost = total_unit_cost_with_misc×q, and outsourcing_mhr = B+2×C
exactly. -/
theorem calculate_costs_formulas :
    ∀ (A B C : ℚ) (q : ℤ) (m : ℚ),
    calculate_costs A B C q m =
      { man_hours_per_unit := round4 A
        machine_hour_rate := round2 B
        wage_rate := round2 C
        basic_cost_per_unit := round2 (A * (B + C))
        overheads_per_unit := round2 (C * A)
        profit_per_unit := round2 (1/10 * (A * (B + C) + C * A))
        packing_forwarding_per_unit := round2 (2/100 * (A * (B + C)))
        unit_cost := round2 (A * (B + C) + C * A +
          1/10 * (A * (B + C) + C * A) + 2/100 * (A * (B + C)))
        total_unit_cost_with_misc := round2 (A * (B + C) + C * A +
          1/10 * (A * (B + C) + C * A) + 2/100 * (A * (B + C)) + m)
        total_cost := round2 ((A * (B + C) + C * A +
          1/10 * (A * (B + C) + C * A) + 2/100 * (A * (B + C)) + m) * (q : ℚ))
        outsourcing_mhr := round2 (B + 2 * C)
        miscellaneous_amount := round2 m } :=
  fun _ _ _ _ _ => rfl

/-- C3: whenever the (operation, duty, category bucket) key of the request
is present in the static methodology table, `get_machine_hour_rate`
returns the Tier-1 value B = investment×0.10/(available×(1−downtime)) +
kW×5 from that table entry, without the 5% maintenance multiplier and
regardless of the configuration records in the database. -/
theorem get_machine_hour_rate_tier1_priority :
    ∀ (db : Database) (operation duty machineName : String)
      (mi oi di : Option ℤ) (inv kw avail dt : ℚ),
    methodology_inputs operation duty (determine_machine_category machineName) =
      some (inv, kw, avail, dt) →
    get_machine_hour_rate db operation duty machineName mi oi di =
      .ok (inv * (1/10) / (avail * (1 - dt)) + kw * 5) := by
  intro db op du mn mi oi di inv kw avail dt h
  simp only [get_machine_hour_rate, tier1, h]

/-- Witness for C3: the (turning, medium, cnc) entry is in the table and
Tier 1 wins even against a database holding a conflicting configured
rate of 999 for the same triple. -/
theorem get_machine_hour_rate_tier1_priority_witness :
    methodology_inputs "turning" "medium"
        (determine_machine_category "CNC Lathe") =
      some (6000000, 15, 4500, 15/100)
    ∧ get_machine_hour_rate dbConflict "turning" "medium" "CNC Lathe"
        (some 1) (some 1) (some 1) =
      .ok (6000000 * (1/10) / (4500 * (1 - 15/100)) + 15 * 5) :=
  ⟨rfl, get_machine_hour_rate_tier1_priority dbConflict "turning" "medium"
    "CNC Lathe" (some 1) (some 1) (some 1) 6000000 15 4500 (15/100) rfl⟩

/-- C4: whenever `get_machine_hour_rate` fails,
`get_machine_hour_rate_with_fallback` returns
B = (investment×0.10/(2400×(1−downtime)) + kW×5) × 1.05 with the 5%
maintenance multiplier, using the category defaults (conventional
1,000,000/15kW; cnc_3axis 3,000,000/20kW; otherwise 5,000,000/25kW) and
the category downtime (7% conventional, 15% otherwise); being total it
never raises. -/
theorem get_machine_hour_rate_with_fallback_tier4 :
    ∀ (db : Database) (operation duty machineName : String) (e : String),
    get_machine_hour_rate db operation duty machineName none none none =
      .error e →
    get_machine_hour_rate_with_fallback db operation duty machineName =
      ((if determine_machine_category machineName = "conventional"
          then (1000000 : ℚ)
        else if determine_machine_category machineName = "cnc_3axis"
          then 3000000 else 5000000) * (1/10) /
        (2400 * (1 - (if determine_machine_category machineName =
            "conventional" then (7/100 : ℚ) else 15/100))) +
        (if determine_machine_category machineName = "conventional"
          then (15 : ℚ)
        else if determine_machine_category machineName = "cnc_3axis"
          then 20 else 25) * 5) * (1 + 5/100) := by
  intro db op du mn e h
  simp only [get_machine_hour_rate_with_fallback, h]
  rcases determine_machine_category_cases mn with hc | hc | hc | hc <;>
    rw [hc] <;> rfl

/-- Witness for C4: on an empty database, (drilling, light) misses every
tier, and the fallback for "CNC Lathe" applies the cnc_3axis defaults
with the maintenance multiplier. -/
theorem get_machine_hour_rate_with_fallback_tier4_witness :
    get_machine_hour_rate emptyDb "drilling" "light" "CNC Lathe"
        none none none = .error mhrNotConfiguredMsg
    ∧ get_machine_hour_rate_with_fallback emptyDb "drilling" "light"
        "CNC Lathe" =
      ((if determine_machine_category "CNC Lathe" = "conventional"
          then (1000000 : ℚ)
        else if determine_machine_category "CNC Lathe" = "cnc_3axis"
          then 3000000 else 5000000) * (1/10) /
        (2400 * (1 - (if determine_machine_category "CNC Lathe" =
            "conventional" then (7/100 : ℚ) else 15/100))) +
        (if determine_machine_category "CNC Lathe" = "conventional"
          then (15 : ℚ)
        else if determine_machine_category "CNC Lathe" = "cnc_3axis"
          then 20 else 25) * 5) * (1 + 5/100) :=
  ⟨rfl, get_machine_hour_rate_with_fallback_tier4 emptyDb "drilling" "light"
    "CNC Lathe" mhrNotConfiguredMsg rfl⟩

/-- C8 counterexample: the claim says the raised error identifies the
unresolved (operation, duty, machine) triple, but the error is one fixed
message: two different unresolved triples get the identical message, and
the message contains neither the operation nor the machine name. -/
theorem get_machine_hour_rate_error_not_identifying :
    get_machine_hour_rate emptyDb "drilling" "light" "DrillX"
        none none none = .error mhrNotConfiguredMsg
    ∧ get_machine_hour_rate emptyDb "welding" "heavy" "WeldBot"
        none none none = .error mhrNotConfiguredMsg
    ∧ strContains mhrNotConfiguredMsg "drilling" = false
    ∧ strContains mhrNotConfiguredMsg "DrillX" = false := by
  refine ⟨rfl, rfl, ?_, ?_⟩ <;> decide

/-- C8 (amended): `get_machine_hour_rate` raises exactly when the
methodology table, the exact configuration lookup and the fuzzy scan all
yield nothing (faults inside the Tier 2-3 database lookups are absorbed
as non-matches by `tier2`/`tier3` and never propagate), and the raised
error is always the one fixed configuration message. -/
theorem get_machine_hour_rate_error_characterization :
    ∀ (db : Database) (operation duty machineName : String)
      (mi oi di : Option ℤ),
    ((∃ e, get_machine_hour_rate db operation duty machineName mi oi di =
        Except.error e) ↔
      (tier1 operation duty machineName = none ∧
       tier2 db operation duty machineName mi oi di = none ∧
       tier3 db operation duty machineName = none))
    ∧ (∀ e, get_machine_hour_rate db operation duty machineName mi oi di =
        Except.error e → e = mhrNotConfiguredMsg) := by
  intro db op du mn mi oi di
  unfold get_machine_hour_rate
  rcases h1 : tier1 op du mn with _ | v1 <;>
    rcases h2 : tier2 db op du mn mi oi di with _ | v2 <;>
    rcases h3 : tier3 db op du mn with _ | v3 <;>
    simp [h1, h2, h3]

/-- Witness for C8: on the empty database every tier misses for
(drilling, light, LatheZ), so the resolver raises. -/
theorem get_machine_hour_rate_error_characterization_witness :
    tier1 "drilling" "light" "LatheZ" = none
    ∧ (∃ e, get_machine_hour_rate emptyDb "drilling" "light" "LatheZ"
        none none none = Except.error e) :=
  ⟨rfl, (get_machine_hour_rate_error_characterization emptyDb "drilling"
    "light" "LatheZ" none none none).1.mpr ⟨rfl, rfl, rfl⟩⟩

/-- C2 counterexample: the methodology table entry for
(turning, medium, cnc) carries 4500 available hours, not the claimed
2400, so the resolved B rounds to 231.86, far from the claimed 369.12. -/
theorem scenario_turning_steel_b_counterexample :
    methodology_inputs "turning" "medium"
        (determine_machine_category "CNC Lathe") =
      some (6000000, 15, 4500, 15/100)
    ∧ (4500 : ℚ) ≠ 2400
    ∧ get_machine_hour_rate emptyDb "turning" "medium" "CNC Lathe"
        none none none =
      .ok (6000000 * (1/10) / (4500 * (1 - 15/100)) + 15 * 5)
    ∧ round2 (6000000 * (1/10) / (4500 * (1 - 15/100)) + 15 * 5) = 23186/100
    ∧ (23186/100 : ℚ) ≠ 36912/100 := by
  refine ⟨rfl, by norm_num, rfl, ?_, by norm_num⟩
  rw [round2_lo _ 23186 (by norm_num) (by norm_num)]
  norm_num

/-- C2 (amended): for the scenario (turning, steel, diameter 50, length
200, machine "CNC Lathe", man-hours 0.5, no override, no misc) the duty
resolves to medium, the Tier-1 entry (investment 6,000,000, 15 kW,
available 4500, downtime 0.15) gives B = 11825/51 ≈ 231.86, the wage is
C = 100, and the breakdown is D ≈ 165.93, OH = 50.00, profit ≈ 21.59,
PF ≈ 3.32, unit cost ≈ 240.84, outsourcing MHR ≈ 431.86. -/
theorem scenario_turning_steel_amended :
    determine_duty_category "round" ⟨some 50, some 200, none, none⟩
        "steel" "turning" = some "medium"
    ∧ get_machine_hour_rate emptyDb "turning" "medium" "CNC Lathe"
        none none none = .ok (11825/51)
    ∧ get_wage_rate "CNC Lathe" = 100
    ∧ round2 (11825/51) = 23186/100
    ∧ (calculate_costs (1/2) (11825/51) 100 1 0).basic_cost_per_unit =
        16593/100
    ∧ (calculate_costs (1/2) (11825/51) 100 1 0).overheads_per_unit = 50
    ∧ (calculate_costs (1/2) (11825/51) 100 1 0).profit_per_unit = 2159/100
    ∧ (calculate_costs (1/2) (11825/51) 100 1 0).packing_forwarding_per_unit =
        332/100
    ∧ (calculate_costs (1/2) (11825/51) 100 1 0).unit_cost = 24084/100
    ∧ (calculate_costs (1/2) (11825/51) 100 1 0).outsourcing_mhr =
        43186/100 := by
  refine ⟨by decide, ?_, ?_, ?_, ?_, ?_, ?_, ?_, ?_, ?_⟩
  · have hr : get_machine_hour_rate emptyDb "turning" "medium" "CNC Lathe"
        none none none =
        .ok (6000000 * (1/10) / (4500 * (1 - 15/100)) + 15 * 5) := rfl
    rw [hr]
    norm_num
  · have hcat : determine_machine_category "CNC Lathe" = "cnc_3axis" := rfl
    simp only [get_wage_rate, hcat]
    rw [if_neg (by decide)]
    norm_num
  · rw [round2_lo _ 23186 (by norm_num) (by norm_num)]; norm_num
  · have h : (calculate_costs (1/2) (11825/51) 100 1 0).basic_cost_per_unit =
        round2 (1/2 * (11825/51 + 100)) := rfl
    rw [h, round2_lo _ 16593 (by norm_num) (by norm_num)]; norm_num
  · have h : (calculate_costs (1/2) (11825/51) 100 1 0).overheads_per_unit =
        round2 (100 * (1/2)) := rfl
    rw [h, round2_lo _ 5000 (by norm_num) (by norm_num)]; norm_num
  · have h : (calculate_costs (1/2) (11825/51) 100 1 0).profit_per_unit =
        round2 (1/10 * (1/2 * (11825/51 + 100) + 100 * (1/2))) := rfl
    rw [h, round2_lo _ 2159 (by norm_num) (by norm_num)]; norm_num
  · have h : (calculate_costs (1/2) (11825/51) 100 1
        0).packing_forwarding_per_unit =
        round2 (2/100 * (1/2 * (11825/51 + 100))) := rfl
    rw [h, round2_hi _ 331 (by norm_num) (by norm_num) (by norm_num)]
    norm_num
  · have h : (calculate_costs (1/2) (11825/51) 100 1 0).unit_cost =
        round2 (1/2 * (11825/51 + 100) + 100 * (1/2) +
          1/10 * (1/2 * (11825/51 + 100) + 100 * (1/2)) +
          2/100 * (1/2 * (11825/51 + 100))) := rfl
    rw [h, round2_lo _ 24084 (by norm_num) (by norm_num)]; norm_num
  · have h : (calculate_costs (1/2) (11825/51) 100 1 0).outsourcing_mhr =
        round2 (11825/51 + 2 * 100) := rfl
    rw [h, round2_lo _ 43186 (by norm_num) (by norm_num)]; norm_num

/-- C5 counterexample: with ordered quantity 10 and a supplied negative
amortize quantity -5 the code uses -5 as the divisor (Python truthiness)
and returns 0, while the claim prescribes total/ordered = 10. -/
theorem calculate_nrc_amortization_negative_counterexample :
    (calculate_nrc_amortization 100 0 0 0 0 10 (some (-5))).nrc_per_unit = 0
    ∧ round2 ((100 + 0 + 0 + 0 + 0 : ℚ) / ((10 : ℤ) : ℚ)) = 10
    ∧ (0 : ℚ) ≠ 10 := by
  refine ⟨?_, ?_, by norm_num⟩
  · have h : (calculate_nrc_amortization 100 0 0 0 0 10
        (some (-5))).nrc_per_unit = round2 0 := rfl
    rw [h, round2_zero]
  · rw [round2_lo _ 1000 (by norm_num) (by norm_num)]; norm_num

/-- C5 (amended): `calculate_nrc_amortization` returns total_nrc =
round2 of the sum of the five components; nrc_per_unit is total divided
by the amortize quantity whenever one is supplied and nonzero (positive
gives the rounded quotient, negative gives 0 since the divisor is ≤ 0),
otherwise total divided by the ordered quantity when positive and 0 when
the ordered quantity is ≤ 0; all monetary outputs are rounded to 2
decimals. -/
theorem calculate_nrc_amortization_spec :
    ∀ (t d c s o : ℚ) (ordered : ℤ) (amortize : Option ℤ),
    (calculate_nrc_amortization t d c s o ordered amortize).total_nrc =
      round2 (t + d + c + s + o)
    ∧ (∀ a : ℤ, amortize = some a → 0 < a →
        (calculate_nrc_amortization t d c s o ordered amortize).nrc_per_unit =
          round2 ((t + d + c + s + o) / (a : ℚ)))
    ∧ (∀ a : ℤ, amortize = some a → a < 0 →
        (calculate_nrc_amortization t d c s o ordered amortize).nrc_per_unit =
          0)
    ∧ ((amortize = none ∨ amortize = some 0) → 0 < ordered →
        (calculate_nrc_amortization t d c s o ordered amortize).nrc_per_unit =
          round2 ((t + d + c + s + o) / (ordered : ℚ)))
    ∧ ((amortize = none ∨ amortize = some 0) → ordered ≤ 0 →
        (calculate_nrc_amortization t d c s o ordered amortize).nrc_per_unit =
          0)
    ∧ (calculate_nrc_amortization t d c s o ordered amortize).tooling_cost =
        round2 t
    ∧ (calculate_nrc_amortization t d c s o ordered
        amortize).development_cost = round2 d
    ∧ (calculate_nrc_amortization t d c s o ordered
        amortize).cnc_programming_cost = round2 c
    ∧ (calculate_nrc_amortization t d c s o ordered
        amortize).special_process_cost = round2 s
    ∧ (calculate_nrc_amortization t d c s o ordered
        amortize).other_nrc_cost = round2 o := by
  intro t d c s o ordered amortize
  refine ⟨rfl, ?_, ?_, ?_, ?_, rfl, rfl, rfl, rfl, rfl⟩
  · rintro a rfl ha
    have h0 : ¬(a = 0) := by omega
    simp only [calculate_nrc_amortization, if_neg h0, gt_iff_lt, if_pos ha]
  · rintro a rfl ha
    have h0 : ¬(a = 0) := by omega
    have h1 : ¬(a > 0) := by omega
    simp only [calculate_nrc_amortization, if_neg h0, if_neg h1]
    exact round2_zero
  · rintro (rfl | rfl) hord
    · simp only [calculate_nrc_amortization, gt_iff_lt, if_pos hord]
    · have e0 : ((if (0 : ℤ) = 0 then ordered else 0) : ℤ) = ordered :=
        if_pos rfl
      simp only [calculate_nrc_amortization, e0, if_true, gt_iff_lt,
        if_pos hord]
  · rintro (rfl | rfl) hord
    · have h1 : ¬(ordered > 0) := by omega
      simp only [calculate_nrc_amortization, if_neg h1]
      exact round2_zero
    · have e0 : ((if (0 : ℤ) = 0 then ordered else 0) : ℤ) = ordered :=
        if_pos rfl
      have h1 : ¬(ordered > 0) := by omega
      simp only [calculate_nrc_amortization, e0, if_true, if_neg h1]
      exact round2_zero

/-- Witness for C5: amortize quantity 4 supplied and positive, ordered
quantity 10; per-unit NRC is the rounded quotient by 4. -/
theorem calculate_nrc_amortization_spec_witness :
    (some (4 : ℤ) = some (4 : ℤ)) ∧ (0 : ℤ) < 4 ∧
    (calculate_nrc_amortization 100 0 0 0 0 10 (some 4)).nrc_per_unit =
      round2 (((100 : ℚ) + 0 + 0 + 0 + 0) / ((4 : ℤ) : ℚ)) :=
  ⟨rfl, by norm_num,
    (calculate_nrc_amortization_spec 100 0 0 0 0 10 (some 4)).2.1 4 rfl
      (by norm_num)⟩

/-- C10: when not free issue and the (shape, dimensions) pair matches
neither the round pattern nor the rectangular pattern,
`calculate_material_cost` raises no error and silently returns material
cost 0 and weight 0. -/
theorem calculate_material_cost_unmatched_zero :
    ∀ (material : String) (dims : Dimensions) (shape : String) (cpk : ℚ),
    ¬(shape = "round" ∧ dims.diameter.isSome = true ∧
        dims.length.isSome = true) →
    ¬(shape = "rectangular" ∧ dims.length.isSome = true ∧
        dims.breadth.isSome = true ∧ dims.height.isSome = true) →
    (calculate_material_cost material dims shape cpk
        false).material_cost_per_unit = 0
    ∧ (calculate_material_cost material dims shape cpk
        false).material_weight_kg = 0 := by
  intro mat dims shape cpk h1 h2
  simp [calculate_material_cost, if_neg h1, if_neg h2, round2_zero,
    round3_zero]

/-- Witness for C10: shape "hexagon" matches neither pattern; the cost
silently comes out 0. -/
theorem calculate_material_cost_unmatched_zero_witness :
    ¬("hexagon" = "round" ∧ (some (1:ℚ)).isSome = true ∧
        (some (1:ℚ)).isSome = true)
    ∧ ¬("hexagon" = "rectangular" ∧ (some (1:ℚ)).isSome = true ∧
        (none : Option ℚ).isSome = true ∧ (none : Option ℚ).isSome = true)
    ∧ (calculate_material_cost "steel" ⟨some 1, some 1, none, none⟩
        "hexagon" 85 false).material_cost_per_unit = 0 := by
  refine ⟨by decide, by decide, ?_⟩
  exact (calculate_material_cost_unmatched_zero "steel"
    ⟨some 1, some 1, none, none⟩ "hexagon" 85 (by decide) (by decide)).1

/-- C6 counterexample: for turning with a forbidden breadth supplied,
validation fails but the error names neither "breadth" nor "height" (it
names the permitted fields instead), so the error does not name the
missing/forbidden fields as the claim states. -/
theorem validate_dimensions_forbidden_field_not_named :
    validate_dimensions_by_operation .turning
        ⟨some 50, 200, some 10, none⟩ =
      .error "For turning operation, only 'diameter' and 'length' are needed (round part)"
    ∧ strContains
        "For turning operation, only 'diameter' and 'length' are needed (round part)"
        "breadth" = false
    ∧ strContains
        "For turning operation, only 'diameter' and 'length' are needed (round part)"
        "height" = false := by
  refine ⟨rfl, ?_, ?_⟩ <;> decide

/-- C6 (amended): dimension validation fails exactly when
turning/boring lacks diameter or has breadth or height,
milling/grinding/surface_treatment lacks breadth or height or has
diameter, and the remaining operations carry both or neither of the
round and rectangular dimension sets; every error message names the
operation (missing-field errors name the required fields, while
forbidden-field errors name the permitted fields instead of the
offending ones), and every other dimension set is accepted. -/
theorem validate_dimensions_characterization :
    ∀ (op : OperationTypeE) (v : ComponentDimensions),
    ((∃ e, validate_dimensions_by_operation op v = .error e) ↔
      claimedDimensionFailure op v)
    ∧ (∀ e, validate_dimensions_by_operation op v = .error e →
        strContains e op.value = true)
    ∧ (¬claimedDimensionFailure op v →
        validate_dimensions_by_operation op v = .ok v) := by
  intro op v
  obtain ⟨di, l, br, hi⟩ := v
  cases op <;> cases di <;> cases br <;> cases hi <;>
    simp [validate_dimensions_by_operation, claimedDimensionFailure,
      OperationTypeE.value] <;>
    decide

/-- Witness for C6: turning with no diameter trips the claimed failure
condition and validation indeed errors. -/
theorem validate_dimensions_characterization_witness :
    claimedDimensionFailure .turning ⟨none, 200, none, none⟩
    ∧ (∃ e, validate_dimensions_by_operation .turning
        ⟨none, 200, none, none⟩ = .error e) :=
  ⟨by decide,
    (validate_dimensions_characterization .turning
      ⟨none, 200, none, none⟩).1.mpr (by decide)⟩

lemma duty_round_eq (material operation : String) (d l : ℚ) :
    determine_duty_category "round" ⟨some d, some l, none, none⟩
        material operation =
      some (dutyAdjust (pyLower (pyTrim material))
        (pyLower (pyTrim operation))
        (roundBase (pyLower (pyTrim material))
          (pyLower (pyTrim operation)) d l)) := rfl

lemma duty_rect_eq (material operation : String) (l b h : ℚ) :
    determine_duty_category "rectangular" ⟨none, some l, some b, some h⟩
        material operation =
      some (dutyAdjust (pyLower (pyTrim material))
        (pyLower (pyTrim operation)) (rectBase l b h)) := rfl

lemma roundBase_mem (mat op : String) (d l : ℚ) :
    roundBase mat op d l = "light" ∨ roundBase mat op d l = "medium" ∨
    roundBase mat op d l = "heavy" := by
  simp only [roundBase]
  split_ifs <;> simp

lemma rectBase_mem (l b h : ℚ) :
    rectBase l b h = "light" ∨ rectBase l b h = "medium" ∨
    rectBase l b h = "heavy" := by
  simp only [rectBase]
  split_ifs <;> simp

lemma bump_light_one : bump "light" 1 = "medium" := by decide

lemma bump_light_zero : bump "light" 0 = "light" := by decide

lemma bump_medium_one : bump "medium" 1 = "heavy" := by decide

lemma bump_medium_zero : bump "medium" 0 = "medium" := by decide

lemma bump_heavy_one : bump "heavy" 1 = "heavy" := by decide

lemma bump_heavy_zero : bump "heavy" 0 = "heavy" := by decide

lemma dutyAdjust_rank_mono (mat op : String) {b1 b2 : String}
    (h1 : b1 = "light" ∨ b1 = "medium" ∨ b1 = "heavy")
    (h2 : b2 = "light" ∨ b2 = "medium" ∨ b2 = "heavy")
    (h : dutyRank b1 ≤ dutyRank b2) :
    dutyRank (dutyAdjust mat op b1) ≤ dutyRank (dutyAdjust mat op b2) := by
  by_cases hs : mat = "steel" ∨ mat = "titanium" <;>
    by_cases ht : mat = "titanium" <;>
    by_cases hw : op = "heat_treatment" ∨ op = "welding" <;>
    rcases h1 with rfl | rfl | rfl <;> rcases h2 with rfl | rfl | rfl <;>
    simp_all [dutyAdjust, dutyRank, bump_light_one, bump_light_zero,
      bump_medium_one, bump_medium_zero, bump_heavy_one, bump_heavy_zero]

lemma dutyAdjust_titanium (op : String) (b : String)
    (hb : b = "light" ∨ b = "medium" ∨ b = "heavy") :
    dutyAdjust "titanium" op b = "heavy" := by
  rcases hb with rfl | rfl | rfl <;>
    by_cases hw : op = "heat_treatment" ∨ op = "welding" <;>
    simp_all [dutyAdjust, bump_light_one, bump_light_zero, bump_medium_one,
      bump_medium_zero, bump_heavy_one, bump_heavy_zero]

lemma tier_rank_mono {P Q P2 Q2 : Prop} [Decidable P] [Decidable Q]
    [Decidable P2] [Decidable Q2] (hP : P2 → P) (hQ : Q2 → Q) :
    dutyRank (if P then "light" else if Q then "medium" else "heavy") ≤
    dutyRank (if P2 then "light" else if Q2 then "medium" else "heavy") := by
  split_ifs <;> simp_all [dutyRank]

lemma roundBase_rank_mono_d (mat op : String) (l : ℚ) {d d2 : ℚ}
    (hd : d ≤ d2) :
    dutyRank (roundBase mat op d l) ≤ dutyRank (roundBase mat op d2 l) := by
  simp only [roundBase]
  by_cases hop : op = "turning" ∨ op = "boring" <;>
    simp only [if_pos, if_neg, hop, if_true, if_false]
  · by_cases h1 : mat = "aluminium" <;> simp only [h1, if_true, if_false]
    · exact tier_rank_mono (fun hp => ⟨lt_of_le_of_lt hd hp.1, hp.2⟩)
        (fun hq => ⟨le_trans hd hq.1, hq.2⟩)
    · by_cases h2 : mat = "steel" <;> simp only [h2, if_true, if_false]
      · exact tier_rank_mono (fun hp => ⟨lt_of_le_of_lt hd hp.1, hp.2⟩)
          (fun hq => ⟨le_trans hd hq.1, hq.2⟩)
      · by_cases h3 : mat = "titanium" <;>
          simp only [h3, if_true, if_false]
        · exact tier_rank_mono (fun hp => ⟨lt_of_le_of_lt hd hp.1, hp.2⟩)
            (fun hq => ⟨le_trans hd hq.1, hq.2⟩)
        · exact tier_rank_mono (fun hp => ⟨lt_of_le_of_lt hd hp.1, hp.2⟩)
            (fun hq => ⟨le_trans hd hq.1, hq.2⟩)
  · exact tier_rank_mono (fun hp => ⟨le_trans hd hp.1, hp.2⟩)
      (fun hq => ⟨le_trans hd hq.1, hq.2⟩)

lemma roundBase_rank_mono_l (mat op : String) (d : ℚ) {l l2 : ℚ}
    (hl : l ≤ l2) :
    dutyRank (roundBase mat op d l) ≤ dutyRank (roundBase mat op d l2) := by
  simp only [roundBase]
  by_cases hop : op = "turning" ∨ op = "boring" <;>
    simp only [if_pos, if_neg, hop, if_true, if_false]
  · by_cases h1 : mat = "aluminium" <;> simp only [h1, if_true, if_false]
    · exact tier_rank_mono (fun hp => ⟨hp.1, lt_of_le_of_lt hl hp.2⟩)
        (fun hq => ⟨hq.1, le_trans hl hq.2⟩)
    · by_cases h2 : mat = "steel" <;> simp only [h2, if_true, if_false]
      · exact tier_rank_mono (fun hp => ⟨hp.1, lt_of_le_of_lt hl hp.2⟩)
          (fun hq => ⟨hq.1, le_trans hl hq.2⟩)
      · by_cases h3 : mat = "titanium" <;>
          simp only [h3, if_true, if_false]
        · exact tier_rank_mono (fun hp => ⟨hp.1, lt_of_le_of_lt hl hp.2⟩)
            (fun hq => ⟨hq.1, le_trans hl hq.2⟩)
        · exact tier_rank_mono (fun hp => ⟨hp.1, lt_of_le_of_lt hl hp.2⟩)
            (fun hq => ⟨hq.1, le_trans hl hq.2⟩)
  · exact tier_rank_mono (fun hp => ⟨hp.1, le_trans hl hp.2⟩)
      (fun hq => ⟨hq.1, le_trans hl hq.2⟩)

lemma rectBase_rank_mono {l l2 b b2 h h2 : ℚ} (hl : l ≤ l2) (hb : b ≤ b2)
    (hh : h ≤ h2) :
    dutyRank (rectBase l b h) ≤ dutyRank (rectBase l2 b2 h2) := by
  simp only [rectBase]
  have hm : max l (max b h) ≤ max l2 (max b2 h2) :=
    max_le_max hl (max_le_max hb hh)
  exact tier_rank_mono (fun hp => le_trans hm hp) (fun hq => le_trans hm hq)

/-- C7: for every fixed material, operation and shape with its valid
dimension set, the duty classifier is monotone in size: increasing any
single dimension (diameter or length of a round part; length, breadth or
height of a rectangular part) never lowers the duty in the order
light < medium < heavy. -/
theorem determine_duty_category_monotone :
    ∀ (material operation : String) (dd dd2 ll ll2 bb bb2 hh hh2 : ℚ),
    (dd ≤ dd2 →
      dutyRankO (determine_duty_category "round"
        ⟨some dd, some ll, none, none⟩ material operation) ≤
      dutyRankO (determine_duty_category "round"
        ⟨some dd2, some ll, none, none⟩ material operation))
    ∧ (ll ≤ ll2 →
      dutyRankO (determine_duty_category "round"
        ⟨some dd, some ll, none, none⟩ material operation) ≤
      dutyRankO (determine_duty_category "round"
        ⟨some dd, some ll2, none, none⟩ material operation))
    ∧ (ll ≤ ll2 →
      dutyRankO (determine_duty_category "rectangular"
        ⟨none, some ll, some bb, some hh⟩ material operation) ≤
      dutyRankO (determine_duty_category "rectangular"
        ⟨none, some ll2, some bb, some hh⟩ material operation))
    ∧ (bb ≤ bb2 →
      dutyRankO (determine_duty_category "rectangular"
        ⟨none, some ll, some bb, some hh⟩ material operation) ≤
      dutyRankO (determine_duty_category "rectangular"
        ⟨none, some ll, some bb2, some hh⟩ material operation))
    ∧ (hh ≤ hh2 →
      dutyRankO (determine_duty_category "rectangular"
        ⟨none, some ll, some bb, some hh⟩ material operation) ≤
      dutyRankO (determine_duty_category "rectangular"
        ⟨none, some ll, some bb, some hh2⟩ material operation)) := by
  intro material operation dd dd2 ll ll2 bb bb2 hh hh2
  refine ⟨?_, ?_, ?_, ?_, ?_⟩ <;> intro hle
  · rw [duty_round_eq, duty_round_eq]
    exact dutyAdjust_rank_mono _ _
      (roundBase_mem _ _ _ _) (roundBase_mem _ _ _ _)
      (roundBase_rank_mono_d _ _ _ hle)
  · rw [duty_round_eq, duty_round_eq]
    exact dutyAdjust_rank_mono _ _
      (roundBase_mem _ _ _ _) (roundBase_mem _ _ _ _)
      (roundBase_rank_mono_l _ _ _ hle)
  · rw [duty_rect_eq, duty_rect_eq]
    exact dutyAdjust_rank_mono _ _
      (rectBase_mem _ _ _) (rectBase_mem _ _ _)
      (rectBase_rank_mono hle le_rfl le_rfl)
  · rw [duty_rect_eq, duty_rect_eq]
    exact dutyAdjust_rank_mono _ _
      (rectBase_mem _ _ _) (rectBase_mem _ _ _)
      (rectBase_rank_mono le_rfl hle le_rfl)
  · rw [duty_rect_eq, duty_rect_eq]
    exact dutyAdjust_rank_mono _ _
      (rectBase_mem _ _ _) (rectBase_mem _ _ _)
      (rectBase_rank_mono le_rfl le_rfl hle)

/-- Witness for C7: growing the diameter of a steel turning part from 40
to 60 does not lower the duty. -/
theorem determine_duty_category_monotone_witness :
    (40 : ℚ) ≤ 60 ∧
    dutyRankO (determine_duty_category "round"
      ⟨some 40, some 100, none, none⟩ "steel" "turning") ≤
    dutyRankO (determine_duty_category "round"
      ⟨some 60, some 100, none, none⟩ "steel" "turning") :=
  ⟨by norm_num, (determine_duty_category_monotone "steel" "turning"
    40 60 100 100 0 0 0 0).1 (by norm_num)⟩

/-- C9: with material "titanium" in any casing and surrounding
whitespace, the duty classifier returns heavy for every valid round or
rectangular dimension set: the post-adjustment bumps titanium light to
medium and titanium medium to heavy. -/
theorem titanium_always_heavy :
    ∀ (material operation : String) (dd ll bb hh : ℚ),
    pyLower (pyTrim material) = "titanium" →
    determine_duty_category "round" ⟨some dd, some ll, none, none⟩
        material operation = some "heavy"
    ∧ determine_duty_category "rectangular"
        ⟨none, some ll, some bb, some hh⟩ material operation =
      some "heavy" := by
  intro material operation dd ll bb hh hmat
  constructor
  · rw [duty_round_eq, hmat]
    exact congrArg some (dutyAdjust_titanium _ _ (roundBase_mem _ _ _ _))
  · rw [duty_rect_eq, hmat]
    exact congrArg some (dutyAdjust_titanium _ _ (rectBase_mem _ _ _))

/-- Witness for C9: material "  TiTanium " (mixed case, padded) on a
small round turning part still classifies heavy. -/
theorem titanium_always_heavy_witness :
    pyLower (pyTrim "  TiTanium ") = "titanium"
    ∧ determine_duty_category "round" ⟨some 10, some 10, none, none⟩
        "  TiTanium " "turning" = some "heavy" :=
  ⟨rfl, (titanium_always_heavy "  TiTanium " "turning" 10 10 0 0 rfl).1⟩

end HAL
